import Mathlib

set_option maxRecDepth 100000

/-!
Verification development for the coding_sourcer repository.

The repository contains three Python scripts sharing one enrichment core:
a pure location-text normalizer, two geocode providers (Google, Nominatim)
in front of a process-wide result cache, a provider dispatcher, a resilient
HTTP GET primitive, and a deduplicating post-processing pipeline.

This file gives a shallow embedding of that core:
* strings are Lean `String` (a list of characters);
* Python text operations (`strip`, `lower`, the three `re.sub` patterns used
  by the normalizer) are implemented over `List Char`, with character classes
  (whitespace, word characters, case mapping) covering ASCII and Latin-1 -
  the full repertoire used by the scripts' tables and sentinel sets;
* the process-wide geocode cache is an explicit association list threaded
  through the provider functions (Python `dict` insertion semantics);
* the network is an explicit oracle argument: a provider call either yields
  parsed response data or an exception value, and every provider function
  additionally returns the number of network calls it issued;
* `requests` exceptions inside the resilient `get` are an explicit outcome
  stream indexed by attempt number.
-/

namespace Sourcer

/-- Code points Python treats as whitespace for `str.strip()` and `\s`
(ASCII control whitespace, file/group/record/unit separators, NEL, NBSP and
the Unicode space separators). -/
def spaceCodes : List Nat :=
  [9, 10, 11, 12, 13, 28, 29, 30, 31, 32, 133, 160, 5760,
   8192, 8193, 8194, 8195, 8196, 8197, 8198, 8199, 8200, 8201, 8202,
   8232, 8233, 8239, 8287, 12288]

/-- Python whitespace test. -/
def isPySpace (c : Char) : Bool := spaceCodes.contains c.toNat

/-- Python regex word-character test (`\w`, used for `\b`), restricted to the
ASCII and Latin-1 range handled by this embedding. -/
def isWordChar (c : Char) : Bool :=
  decide ((48 ≤ c.toNat ∧ c.toNat ≤ 57) ∨ (65 ≤ c.toNat ∧ c.toNat ≤ 90) ∨
    (97 ≤ c.toNat ∧ c.toNat ≤ 122) ∨ c.toNat = 95 ∨ c.toNat = 170 ∨
    c.toNat = 181 ∨ c.toNat = 186 ∨
    (192 ≤ c.toNat ∧ c.toNat ≤ 255 ∧ c.toNat ≠ 215 ∧ c.toNat ≠ 247))

/-- Python `str.lower` on one character, for the ASCII and Latin-1 letters
appearing in the scripts' data. -/
def pyLowerChar (c : Char) : Char :=
  if 65 ≤ c.toNat ∧ c.toNat ≤ 90 then Char.ofNat (c.toNat + 32)
  else if 192 ≤ c.toNat ∧ c.toNat ≤ 222 ∧ c.toNat ≠ 215 then Char.ofNat (c.toNat + 32)
  else c

/-- Python `str.upper` on one character (ASCII and Latin-1 letters). -/
def pyUpperChar (c : Char) : Char :=
  if 97 ≤ c.toNat ∧ c.toNat ≤ 122 then Char.ofNat (c.toNat - 32)
  else if 224 ≤ c.toNat ∧ c.toNat ≤ 254 ∧ c.toNat ≠ 247 then Char.ofNat (c.toNat - 32)
  else c

/-- Python `str.lower`. -/
def pyLower (s : String) : String := ⟨s.data.map pyLowerChar⟩

/-- Python `str.upper`. -/
def pyUpper (s : String) : String := ⟨s.data.map pyUpperChar⟩

/-- Drop the longest suffix of elements satisfying `p`. -/
def rdropW (p : Char → Bool) (l : List Char) : List Char :=
  (l.reverse.dropWhile p).reverse

/-- Python `str.strip()` on a character list. -/
def stripW (l : List Char) : List Char :=
  rdropW isPySpace (l.dropWhile isPySpace)

/-- Python `str.strip()`. -/
def pyStrip (s : String) : String := ⟨stripW s.data⟩

/-- Membership in the strip set of `strip(" ,;|-")`. -/
def isStripPunct (c : Char) : Bool :=
  c == ' ' || c == ',' || c == ';' || c == '|' || c == '-'

/-- Python `str.strip(" ,;|-")` on a character list. -/
def stripPunctW (l : List Char) : List Char :=
  rdropW isStripPunct (l.dropWhile isStripPunct)

/-- Case-insensitive match of the literal pattern `pat` at the head of `l`;
returns the remaining characters on success. -/
def ciMatch (pat : List Char) (l : List Char) : Option (List Char) :=
  match pat, l with
  | [], rest => some rest
  | _ :: _, [] => none
  | p :: ps, c :: cs => if pyLowerChar c == pyLowerChar p then ciMatch ps cs else none

/-- Word-boundary test for the position right after a match that ended in a
word character: the rest must start with a non-word character or be empty. -/
def boundaryAfter : List Char → Bool
  | [] => true
  | c :: _ => !isWordChar c

/-- Match `european\s+union` (case-insensitive) at the head of `l`. -/
def matchEuropeanUnion (l : List Char) : Option (List Char) :=
  match ciMatch "european".data l with
  | none => none
  | some r =>
    match r with
    | [] => none
    | c :: cs =>
      if isPySpace c then ciMatch "union".data ((c :: cs).dropWhile isPySpace)
      else none

/-- Match the body of `\b(european\s+union|eu)\b` at the head of `l`
(the before-boundary is checked by the caller); alternatives are tried in
the pattern's order, re-trying the shorter one when the trailing boundary
fails, as Python's backtracking does. -/
def tryEU (l : List Char) : Option (List Char) :=
  match matchEuropeanUnion l with
  | some r =>
    if boundaryAfter r then some r
    else
      match ciMatch "eu".data l with
      | some r2 => if boundaryAfter r2 then some r2 else none
      | none => none
  | none =>
    match ciMatch "eu".data l with
    | some r2 => if boundaryAfter r2 then some r2 else none
    | none => none

/-- Scanner for `re.sub(r"\b(european\s+union|eu)\b", "", s)` (IGNORECASE).
`prevWord` records whether the previous original character is a word
character (false at the start of the string); both alternatives begin with
a word character, so a match can only start after a non-word position. -/
def subEUAux : Nat → Bool → List Char → List Char
  | 0, _, rest => rest
  | _ + 1, _, [] => []
  | f + 1, prevWord, c :: cs =>
    if !prevWord then
      match tryEU (c :: cs) with
      | some rest => subEUAux f true rest
      | none => c :: subEUAux f (isWordChar c) cs
    else c :: subEUAux f (isWordChar c) cs

/-- First cleaning rule of `_CLEAN_REPLACEMENTS`. -/
def subEU (l : List Char) : List Char := subEUAux l.length false l

/-- Match `remote\s*only` (case-insensitive) at the head of `l`. -/
def matchRemoteOnly (l : List Char) : Option (List Char) :=
  (ciMatch "remote".data l).bind fun r => ciMatch "only".data (r.dropWhile isPySpace)

/-- Match `fully\s*remote` (case-insensitive) at the head of `l`. -/
def matchFullyRemote (l : List Char) : Option (List Char) :=
  (ciMatch "fully".data l).bind fun r => ciMatch "remote".data (r.dropWhile isPySpace)

/-- Match the body of `\b(remote\s*only|fully\s*remote|remote)\b` at the head
of `l`, alternatives in the pattern's order with the trailing boundary. -/
def tryRemote (l : List Char) : Option (List Char) :=
  match matchRemoteOnly l with
  | some r =>
    if boundaryAfter r then some r else tryRemoteRest l
  | none => tryRemoteRest l
where
  /-- Remaining two alternatives. -/
  tryRemoteRest (l : List Char) : Option (List Char) :=
    match matchFullyRemote l with
    | some r =>
      if boundaryAfter r then some r
      else
        match ciMatch "remote".data l with
        | some r2 => if boundaryAfter r2 then some r2 else none
        | none => none
    | none =>
      match ciMatch "remote".data l with
      | some r2 => if boundaryAfter r2 then some r2 else none
      | none => none

/-- Scanner for
`re.sub(r"\b(remote\s*only|fully\s*remote|remote)\b", "remote", s)`
(IGNORECASE). -/
def subRemoteAux : Nat → Bool → List Char → List Char
  | 0, _, rest => rest
  | _ + 1, _, [] => []
  | f + 1, prevWord, c :: cs =>
    if !prevWord then
      match tryRemote (c :: cs) with
      | some rest => "remote".data ++ subRemoteAux f true rest
      | none => c :: subRemoteAux f (isWordChar c) cs
    else c :: subRemoteAux f (isWordChar c) cs

/-- Second cleaning rule of `_CLEAN_REPLACEMENTS`. -/
def subRemote (l : List Char) : List Char := subRemoteAux l.length false l

/-- Zero-width characters removed by the third cleaning rule. -/
def zeroWidthCodes : List Nat := [8203, 8204, 8205, 65279]

/-- Third cleaning rule of `_CLEAN_REPLACEMENTS`:
`re.sub(r"[​‌‍﻿]", "", s)`. -/
def subZeroWidth (l : List Char) : List Char :=
  l.filter (fun c => !(zeroWidthCodes.contains c.toNat))

/-- Scanner for `re.sub(r"\s+", " ", s)`: each maximal whitespace run becomes
one space. -/
def collapseW : List Char → List Char
  | [] => []
  | [c] => if isPySpace c then [' '] else [c]
  | c :: d :: cs =>
    if isPySpace c && isPySpace d then collapseW (d :: cs)
    else (if isPySpace c then ' ' else c) :: collapseW (d :: cs)

/-- Test for `\s*(european union|eu)\s*$` (IGNORECASE) at the head of `l`,
the part of the trailing-suffix pattern after its comma. -/
def euTailMatch (l : List Char) : Bool :=
  let r := l.dropWhile isPySpace
  (match ciMatch "european union".data r with
   | some rest => rest.all isPySpace
   | none => false) ||
  (match ciMatch "eu".data r with
   | some rest => rest.all isPySpace
   | none => false)

/-- Index of the leftmost match of `,\s*(european union|eu)\s*$`. -/
def euSuffixIdx : List Char → Option Nat
  | [] => none
  | c :: cs =>
    if c == ',' && euTailMatch cs then some 0
    else (euSuffixIdx cs).map (· + 1)

/-- The final cleaning step
`re.sub(r",\s*(european union|eu)\s*$", "", s)` (IGNORECASE). -/
def euSuffixStripW (l : List Char) : List Char :=
  match euSuffixIdx l with
  | some i => l.take i
  | none => l

namespace GP

/-- Sentinel set `_BAD_LOCATIONS` of geocode_postprocess.py. -/
def BAD_LOCATIONS : List String :=
  ["", "remote", "worldwide", "earth", "somewhere", "internet", "everywhere",
   "global", "online", "anywhere", "planet earth", "the internet", "github",
   "home", "distributed", "international", "europe", "eu", "european union",
   "emea", "apac"]

/-- Alias table `_LOCATION_MAP` of geocode_postprocess.py, in source order. -/
def LOCATION_MAP : List (String × String) :=
  [("sf", "San Francisco, CA, USA"),
   ("bay area", "San Francisco Bay Area, CA, USA"),
   ("ny", "New York, NY, USA"),
   ("nyc", "New York, NY, USA"),
   ("la", "Los Angeles, CA, USA"),
   ("uk", "United Kingdom"),
   ("u.k.", "United Kingdom"),
   ("england", "England, United Kingdom"),
   ("scotland", "Scotland, United Kingdom"),
   ("wales", "Wales, United Kingdom"),
   ("paris", "Paris, France"),
   ("idf", "Île-de-France, France"),
   ("paca", "Provence-Alpes-Côte d\x27Azur, France"),
   ("75", "Paris, France"),
   ("lyon", "Lyon, France"),
   ("marseille", "Marseille, France"),
   ("toulouse", "Toulouse, France"),
   ("nantes", "Nantes, France"),
   ("bordeaux", "Bordeaux, France"),
   ("de", "Germany"),
   ("germany", "Germany"),
   ("berlin", "Berlin, Germany"),
   ("munich", "Munich, Germany"),
   ("hamburg", "Hamburg, Germany"),
   ("es", "Spain"),
   ("spain", "Spain"),
   ("madrid", "Madrid, Spain"),
   ("barcelona", "Barcelona, Spain"),
   ("valencia", "Valencia, Spain"),
   ("it", "Italy"),
   ("italy", "Italy"),
   ("rome", "Rome, Italy"),
   ("milano", "Milan, Italy"),
   ("milan", "Milan, Italy"),
   ("napoli", "Naples, Italy"),
   ("nl", "Netherlands"),
   ("netherlands", "Netherlands"),
   ("holland", "Netherlands"),
   ("amsterdam", "Amsterdam, Netherlands"),
   ("rotterdam", "Rotterdam, Netherlands"),
   ("be", "Belgium"),
   ("belgium", "Belgium"),
   ("brussels", "Brussels, Belgium"),
   ("bxl", "Brussels, Belgium"),
   ("pt", "Portugal"),
   ("portugal", "Portugal"),
   ("lisbon", "Lisbon, Portugal"),
   ("porto", "Porto, Portugal"),
   ("ie", "Ireland"),
   ("ireland", "Ireland"),
   ("dublin", "Dublin, Ireland"),
   ("at", "Austria"),
   ("austria", "Austria"),
   ("vienna", "Vienna, Austria"),
   ("pl", "Poland"),
   ("poland", "Poland"),
   ("warsaw", "Warsaw, Poland"),
   ("krakow", "Krakow, Poland"),
   ("cz", "Czech Republic"),
   ("czech", "Czech Republic"),
   ("prague", "Prague, Czech Republic"),
   ("hu", "Hungary"),
   ("hungary", "Hungary"),
   ("budapest", "Budapest, Hungary"),
   ("ro", "Romania"),
   ("romania", "Romania"),
   ("bucharest", "Bucharest, Romania"),
   ("bg", "Bulgaria"),
   ("bulgaria", "Bulgaria"),
   ("sofia", "Sofia, Bulgaria"),
   ("gr", "Greece"),
   ("greece", "Greece"),
   ("athens", "Athens, Greece"),
   ("se", "Sweden"),
   ("sweden", "Sweden"),
   ("stockholm", "Stockholm, Sweden"),
   ("dk", "Denmark"),
   ("denmark", "Denmark"),
   ("copenhagen", "Copenhagen, Denmark"),
   ("fi", "Finland"),
   ("finland", "Finland"),
   ("helsinki", "Helsinki, Finland"),
   ("hr", "Croatia"),
   ("croatia", "Croatia"),
   ("zagreb", "Zagreb, Croatia"),
   ("si", "Slovenia"),
   ("slovenia", "Slovenia"),
   ("ljubljana", "Ljubljana, Slovenia"),
   ("sk", "Slovakia"),
   ("slovakia", "Slovakia"),
   ("bratislava", "Bratislava, Slovakia"),
   ("lt", "Lithuania"),
   ("vilnius", "Vilnius, Lithuania"),
   ("lv", "Latvia"),
   ("riga", "Riga, Latvia"),
   ("ee", "Estonia"),
   ("tallinn", "Tallinn, Estonia"),
   ("cy", "Cyprus"),
   ("cyprus", "Cyprus"),
   ("mt", "Malta"),
   ("malta", "Malta")]

/-- The normalizer `normalize_location_text` of geocode_postprocess.py.
The input is `Option String` so that the `raw is None` guard is represented;
`str(raw)` on a string is the identity. -/
def normalize_location_text (raw : Option String) : String × String :=
  match raw with
  | none => ("", "EMPTY")
  | some raw0 =>
    let s := stripW raw0.data
    if s.isEmpty then ("", "EMPTY")
    else
      let s_low := stripW (s.map pyLowerChar)
      if BAD_LOCATIONS.contains ⟨s_low⟩ then (⟨s_low⟩, "SKIP")
      else
        let s1 := subZeroWidth (subRemote (subEU s))
        let s2 := stripW (stripPunctW (collapseW s1))
        let s_low2 := s2.map pyLowerChar
        if s2.isEmpty then ("", "EMPTY")
        else if BAD_LOCATIONS.contains ⟨s_low2⟩ then (⟨s_low2⟩, "SKIP")
        else
          match (LOCATION_MAP.find? (fun p => p.1 == ⟨s_low2⟩)).map (fun p => p.2) with
          | some v => (v, "MAPPED")
          | none => (⟨stripW (euSuffixStripW s2)⟩, "CLEANED")

end GP

/-- Geocode result record: the nine enrichment fields produced by every
provider. Latitude/longitude hold the `str()` rendering of the response's
numbers, as the scripts immediately stringify them. -/
structure GeoResult where
  owner_location_norm : String
  owner_city : String
  owner_region : String
  owner_country : String
  owner_country_code : String
  owner_lat : String
  owner_lon : String
  owner_geocode_provider : String
  owner_geocode_status : String
deriving DecidableEq, Repr

/-- The process-wide cache `_GEO_CACHE`, an insertion-ordered dictionary. -/
abbrev GeoCache := List (String × GeoResult)

/-- Python `dict` lookup. -/
def dictFind (m : GeoCache) (k : String) : Option GeoResult :=
  match m with
  | [] => none
  | p :: ps => if p.1 == k then some p.2 else dictFind ps k

/-- Python `dict` assignment: overwrite the entry in place when the key is
present (keeping insertion order), otherwise append at the end. -/
def dictInsert (m : GeoCache) (k : String) (v : GeoResult) : GeoCache :=
  match m with
  | [] => [(k, v)]
  | p :: ps => if p.1 == k then (k, v) :: ps else p :: dictInsert ps k v

/-- Python `x or y` for strings: first operand unless it is falsy. -/
def pyOr (a b : String) : String := if a ≠ "" then a else b

/-- Python `o or ""` for an optional string field of a parsed JSON object. -/
def orElseStr (o : Option String) : String :=
  match o with
  | some s => s
  | none => ""

/-- The template `_geo_empty` (shared verbatim by geocode_postprocess.py and
lisp.py). -/
def geo_empty (provider : String) : GeoResult :=
  { owner_location_norm := "", owner_city := "", owner_region := "",
    owner_country := "", owner_country_code := "", owner_lat := "",
    owner_lon := "", owner_geocode_provider := provider,
    owner_geocode_status := "EMPTY" }

/-- The template `_geo_no_match` (shared verbatim by both scripts). -/
def geo_no_match (provider : String) : GeoResult :=
  { geo_empty provider with owner_geocode_status := "NO_MATCH" }

/-- One address component of a Google geocoding response. -/
structure GoogleComp where
  long_name : Option String
  short_name : Option String
  types : List String

/-- One entry of the `results` array of a Google geocoding response.
`lat`/`lon` are `none` when `geometry.location` lacks the field, otherwise
the `str()` rendering of the number. -/
structure GoogleEntry where
  formatted_address : Option String
  lat : Option String
  lon : Option String
  address_components : List GoogleComp

/-- Parsed body of a Google geocoding response (`{}` when `r.content` is
empty is represented by `status := none, results := []`). -/
structure GoogleData where
  status : Option String
  results : List GoogleEntry

/-- Outcome of the single `requests.get` plus JSON parsing performed by
`geocode_google`: either some exception was raised, or parsed data. -/
inductive GoogleNet where
  | exn
  | ok (data : GoogleData)

/-- The `comp_map.setdefault(ty, c)` step: first occurrence per type wins. -/
def setdefaultComp (m : List (String × GoogleComp)) (k : String) (v : GoogleComp) :
    List (String × GoogleComp) :=
  if (m.find? (fun p => p.1 == k)).isSome then m else m ++ [(k, v)]

/-- Build `comp_map` from the address-component list exactly as the nested
`for c in comps: for ty in c.types: comp_map.setdefault(ty, c)` loop does. -/
def buildCompMap (comps : List GoogleComp) : List (String × GoogleComp) :=
  comps.foldl (fun m c => c.types.foldl (fun m ty => setdefaultComp m ty c) m) []

/-- The helper `_long(ty)`: `(comp_map.get(ty) or {}).get("long_name") or ""`. -/
def compLong (m : List (String × GoogleComp)) (ty : String) : String :=
  match (m.find? (fun p => p.1 == ty)).map (fun p => p.2) with
  | some c => orElseStr c.long_name
  | none => ""

/-- The helper `_short(ty)`. -/
def compShort (m : List (String × GoogleComp)) (ty : String) : String :=
  match (m.find? (fun p => p.1 == ty)).map (fun p => p.2) with
  | some c => orElseStr c.short_name
  | none => ""

/-- The `address` dictionary of a Nominatim response. -/
structure NomAddr where
  city : Option String
  town : Option String
  village : Option String
  state : Option String
  region : Option String
  country : Option String
  country_code : Option String

/-- A successful Nominatim location: `latitude`/`longitude` hold the `str()`
rendering of the coordinates. -/
structure NomLoc where
  address : Option String
  latitude : String
  longitude : String
  addr : NomAddr

/-- Outcome of the rate-limited `geocode(raw, addressdetails=True)` call made
by `geocode_nominatim` (plus anything else inside its `try`): an exception,
the specific `GeocoderInsufficientPrivileges` rejection, a falsy result, or a
location. -/
inductive NomNet where
  | exn
  | blocked
  | noResult
  | found (loc : NomLoc)

namespace GP

/-- The provider `geocode_google` of geocode_postprocess.py. Extra explicit
arguments thread ambient state: the `GOOGLE_MAPS_API_KEY` configuration, the
`_GEO_CACHE` dictionary, and the network outcome. Returns the result, the
updated cache, and the number of network calls issued (0 or 1). -/
def geocode_google (apiKey : String) (cache : GeoCache) (net : GoogleNet)
    (raw0 : String) : GeoResult × GeoCache × Nat :=
  let provider := "google"
  let raw := pyStrip raw0
  let key := pyLower raw
  if raw = "" ∨ BAD_LOCATIONS.contains key then
    ({ geo_empty provider with
        owner_geocode_status := if raw ≠ "" then "SKIPPED" else "EMPTY" }, cache, 0)
  else if apiKey = "" then
    ({ geo_empty provider with owner_geocode_status := "NO_API_KEY" }, cache, 0)
  else
    let cache_key := provider ++ ":" ++ key
    match dictFind cache cache_key with
    | some v => (v, cache, 0)
    | none =>
      match net with
      | .exn =>
        let out := { geo_no_match provider with owner_geocode_status := "ERROR" }
        (out, dictInsert cache cache_key out, 1)
      | .ok data =>
        let status := pyUpper (orElseStr data.status)
        if status ≠ "OK" then
          let out := { geo_no_match provider with
            owner_geocode_status := if status ≠ "" then status else "ERROR" }
          (out, dictInsert cache cache_key out, 1)
        else
          match data.results with
          | [] =>
            let out := geo_no_match provider
            (out, dictInsert cache cache_key out, 1)
          | top :: _ =>
            let comp_map := buildCompMap top.address_components
            let city := pyOr (pyOr (compLong comp_map "locality")
              (compLong comp_map "postal_town"))
              (compLong comp_map "administrative_area_level_3")
            let out : GeoResult := {
              owner_location_norm := orElseStr top.formatted_address,
              owner_city := city,
              owner_region := compLong comp_map "administrative_area_level_1",
              owner_country := compLong comp_map "country",
              owner_country_code := compShort comp_map "country",
              owner_lat := top.lat.getD "",
              owner_lon := top.lon.getD "",
              owner_geocode_provider := provider,
              owner_geocode_status := "OK" }
            (out, dictInsert cache cache_key out, 1)

/-- The provider `geocode_nominatim` of geocode_postprocess.py. -/
def geocode_nominatim (cache : GeoCache) (net : NomNet) (raw0 : String) :
    GeoResult × GeoCache × Nat :=
  let provider := "nominatim"
  let raw := pyStrip raw0
  let key := pyLower raw
  if raw = "" ∨ BAD_LOCATIONS.contains key then
    ({ geo_empty provider with
        owner_geocode_status := if raw ≠ "" then "SKIPPED" else "EMPTY" }, cache, 0)
  else
    let cache_key := provider ++ ":" ++ key
    match dictFind cache cache_key with
    | some v => (v, cache, 0)
    | none =>
      match net with
      | .exn =>
        let out := { geo_no_match provider with owner_geocode_status := "ERROR" }
        (out, dictInsert cache cache_key out, 1)
      | .blocked =>
        let out := { geo_no_match provider with owner_geocode_status := "OSM_403_BLOCKED" }
        (out, dictInsert cache cache_key out, 1)
      | .noResult =>
        let out := geo_no_match provider
        (out, dictInsert cache cache_key out, 1)
      | .found loc =>
        let out : GeoResult := {
          owner_location_norm := orElseStr loc.address,
          owner_city := pyOr (pyOr (orElseStr loc.addr.city) (orElseStr loc.addr.town))
            (orElseStr loc.addr.village),
          owner_region := pyOr (orElseStr loc.addr.state) (orElseStr loc.addr.region),
          owner_country := orElseStr loc.addr.country,
          owner_country_code := pyUpper (orElseStr loc.addr.country_code),
          owner_lat := loc.latitude,
          owner_lon := loc.longitude,
          owner_geocode_provider := provider,
          owner_geocode_status := "OK" }
        (out, dictInsert cache cache_key out, 1)

/-- The dispatcher `geocode_and_normalize` of geocode_postprocess.py:
`provider = GEO_PROVIDER or ("google" if GOOGLE_MAPS_API_KEY else "nominatim")`
then branch on the provider name. -/
def geocode_and_normalize (geoProvider apiKey : String) (cache : GeoCache)
    (gnet : GoogleNet) (nnet : NomNet) (raw : String) : GeoResult × GeoCache × Nat :=
  let provider := if geoProvider ≠ "" then geoProvider
    else if apiKey ≠ "" then "google" else "nominatim"
  if provider = "google" then geocode_google apiKey cache gnet raw
  else if provider = "nominatim" then geocode_nominatim cache nnet raw
  else ({ geo_empty provider with owner_geocode_status := "UNKNOWN_PROVIDER" }, cache, 0)

end GP

namespace Lisp

/-- Sentinel set `_BAD_LOCATIONS` of lisp.py (shorter than the
postprocess one). -/
def BAD_LOCATIONS : List String :=
  ["", "remote", "worldwide", "earth", "somewhere", "internet", "everywhere",
   "global", "online", "anywhere", "planet earth", "the internet", "github",
   "home"]

/-- The provider `geocode_google` of lisp.py. It differs from the
postprocess variant in its pre-check: the status is always `"SKIPPED"`,
also for empty input. -/
def geocode_google (apiKey : String) (cache : GeoCache) (net : GoogleNet)
    (raw0 : String) : GeoResult × GeoCache × Nat :=
  let provider := "google"
  let raw := pyStrip raw0
  let key := pyLower raw
  if raw = "" ∨ BAD_LOCATIONS.contains key then
    ({ geo_empty provider with owner_geocode_status := "SKIPPED" }, cache, 0)
  else if apiKey = "" then
    ({ geo_empty provider with owner_geocode_status := "NO_API_KEY" }, cache, 0)
  else
    let cache_key := provider ++ ":" ++ key
    match dictFind cache cache_key with
    | some v => (v, cache, 0)
    | none =>
      match net with
      | .exn =>
        let out := { geo_no_match provider with owner_geocode_status := "ERROR" }
        (out, dictInsert cache cache_key out, 1)
      | .ok data =>
        let status := pyUpper (orElseStr data.status)
        if status ≠ "OK" then
          let out := { geo_no_match provider with
            owner_geocode_status := if status ≠ "" then status else "ERROR" }
          (out, dictInsert cache cache_key out, 1)
        else
          match data.results with
          | [] =>
            let out := geo_no_match provider
            (out, dictInsert cache cache_key out, 1)
          | top :: _ =>
            let comp_map := buildCompMap top.address_components
            let city := pyOr (pyOr (compLong comp_map "locality")
              (compLong comp_map "postal_town"))
              (compLong comp_map "administrative_area_level_3")
            let out : GeoResult := {
              owner_location_norm := orElseStr top.formatted_address,
              owner_city := city,
              owner_region := compLong comp_map "administrative_area_level_1",
              owner_country := compLong comp_map "country",
              owner_country_code := compShort comp_map "country",
              owner_lat := top.lat.getD "",
              owner_lon := top.lon.getD "",
              owner_geocode_provider := provider,
              owner_geocode_status := "OK" }
            (out, dictInsert cache cache_key out, 1)

/-- The provider `geocode_nominatim` of lisp.py: status always `"SKIPPED"`
in the pre-check, otherwise identical to the postprocess variant. -/
def geocode_nominatim (cache : GeoCache) (net : NomNet) (raw0 : String) :
    GeoResult × GeoCache × Nat :=
  let provider := "nominatim"
  let raw := pyStrip raw0
  let key := pyLower raw
  if raw = "" ∨ BAD_LOCATIONS.contains key then
    ({ geo_empty provider with owner_geocode_status := "SKIPPED" }, cache, 0)
  else
    let cache_key := provider ++ ":" ++ key
    match dictFind cache cache_key with
    | some v => (v, cache, 0)
    | none =>
      match net with
      | .exn =>
        let out := { geo_no_match provider with owner_geocode_status := "ERROR" }
        (out, dictInsert cache cache_key out, 1)
      | .blocked =>
        let out := { geo_no_match provider with owner_geocode_status := "OSM_403_BLOCKED" }
        (out, dictInsert cache cache_key out, 1)
      | .noResult =>
        let out := geo_no_match provider
        (out, dictInsert cache cache_key out, 1)
      | .found loc =>
        let out : GeoResult := {
          owner_location_norm := orElseStr loc.address,
          owner_city := pyOr (pyOr (orElseStr loc.addr.city) (orElseStr loc.addr.town))
            (orElseStr loc.addr.village),
          owner_region := pyOr (orElseStr loc.addr.state) (orElseStr loc.addr.region),
          owner_country := orElseStr loc.addr.country,
          owner_country_code := pyUpper (orElseStr loc.addr.country_code),
          owner_lat := loc.latitude,
          owner_lon := loc.longitude,
          owner_geocode_provider := provider,
          owner_geocode_status := "OK" }
        (out, dictInsert cache cache_key out, 1)

/-- The dispatcher `geocode_and_normalize` of lisp.py:
`provider = GEO_PROVIDER; if not provider: provider = "google" if
GOOGLE_MAPS_API_KEY else "nominatim"` then branch on the provider name. -/
def geocode_and_normalize (geoProvider apiKey : String) (cache : GeoCache)
    (gnet : GoogleNet) (nnet : NomNet) (raw : String) : GeoResult × GeoCache × Nat :=
  let provider := if geoProvider = "" then
    (if apiKey ≠ "" then "google" else "nominatim") else geoProvider
  if provider = "google" then geocode_google apiKey cache gnet raw
  else if provider = "nominatim" then geocode_nominatim cache nnet raw
  else ({ geo_empty provider with owner_geocode_status := "UNKNOWN_PROVIDER" }, cache, 0)

end Lisp

namespace GP

/-- The expression `GEO_PROVIDER or ("google" if GOOGLE_MAPS_API_KEY else
"nominatim")`, used both by the dispatcher and by `postprocess_file`. -/
def defaultProviderName (geoProvider apiKey : String) : String :=
  if geoProvider ≠ "" then geoProvider
  else if apiKey ≠ "" then "google" else "nominatim"

/-- Loop state of the unique-value geocoding loop of `postprocess_file`:
the `geo_map` dictionary, the evolving `_GEO_CACHE`, and the number of
provider network calls issued so far. -/
structure PipeState where
  geoMap : GeoCache
  cache : GeoCache
  calls : Nat

/-- One iteration of the `for loc in uniques` loop of `postprocess_file`:
an immediate skip for sentinel values, otherwise one call of
`geocode_and_normalize` (the periodic cache save and sleep have no effect
on the computed data). -/
def geocodeStep (gp ak : String) (gorc : String → GoogleNet) (norc : String → NomNet)
    (st : PipeState) (loc : String) : PipeState :=
  if BAD_LOCATIONS.contains (pyStrip (pyLower loc)) then
    let skipRes := { geo_empty (defaultProviderName gp ak) with
      owner_geocode_status := "SKIPPED" }
    { st with geoMap := dictInsert st.geoMap loc skipRes }
  else
    let r := geocode_and_normalize gp ak st.cache (gorc loc) (norc loc) loc
    { geoMap := dictInsert st.geoMap loc r.1, cache := r.2.1, calls := st.calls + r.2.2 }

/-- Lexicographic comparison of code-point lists (Python string order). -/
def charListLe : List Char → List Char → Bool
  | [], _ => true
  | _ :: _, [] => false
  | a :: as, b :: bs =>
    if a.toNat < b.toNat then true
    else if b.toNat < a.toNat then false
    else charListLe as bs

/-- Insert into a sorted list of strings. -/
def insSorted (x : String) : List String → List String
  | [] => [x]
  | y :: ys => if charListLe x.data y.data then x :: y :: ys else y :: insSorted x ys

/-- Python `sorted` on strings. -/
def sortStrings (l : List String) : List String := l.foldr insSorted []

/-- The expression
`sorted(set([c for c in df["owner_location_clean"].tolist() if str(c).strip()]))`:
the distinct non-empty cleaned values, sorted. -/
def uniquesOf (col : List String) : List String :=
  sortStrings (((col.map (fun v => (normalize_location_text (some v)).1)).filter
    (fun c => pyStrip c ≠ "")).eraseDups)

/-- The data core of `postprocess_file` (file reading/writing and column
bookkeeping stripped away): from the raw location column, compute the
clean/hint pairs, geocode the unique non-empty cleaned values, and broadcast
the results back to every row. Returns the clean/hint column pairs, the
per-row geocode results, the final cache, and the number of provider network
calls issued. -/
def postprocess_core (gp ak : String) (gorc : String → GoogleNet)
    (norc : String → NomNet) (cache0 : GeoCache) (col : List String) :
    List (String × String) × List GeoResult × GeoCache × Nat :=
  let cleanHints := col.map (fun v => normalize_location_text (some v))
  let fin := (uniquesOf col).foldl (geocodeStep gp ak gorc norc) ⟨[], cache0, 0⟩
  let rows := cleanHints.map (fun ch =>
    let loc := pyStrip ch.1
    let geo := if loc ≠ "" then dictFind fin.geoMap loc else none
    geo.getD (geo_empty (defaultProviderName gp ak)))
  (cleanHints, rows, fin.cache, fin.calls)

/-- The cache key the active provider would use for unique value `v`. -/
def activeCacheKey (gp ak : String) (v : String) : String :=
  defaultProviderName gp ak ++ ":" ++ pyLower (pyStrip v)

end GP

/-- One attempt's outcome as seen by the resilient `get` primitives: a
network-level exception from `SESSION.get` (ReadTimeout/ConnectionError) or
a response with a status code and the two rate-limit headers. -/
inductive HttpAttempt where
  | netErr
  | resp (code : Nat) (reset : Option String) (remaining : Option String)

namespace Lisp

/-- Final outcome of lisp.py's `get`: a returned response (with the attempt
number on which it was obtained) or the `RuntimeError("GET failed after
retries: ...")` raised after the attempt budget is exhausted. -/
inductive GetResult where
  | success (code : Nat) (attempts : Nat)
  | failure (attempts : Nat)
deriving DecidableEq, Repr

/-- The attempt loop of lisp.py's `get`. `idx` counts attempts already made;
`fuel` is the remaining budget (6 at the start). A 401 runs
`resp.raise_for_status()`, whose `HTTPError` is caught by the
`except (ReadTimeout, ConnectionError, HTTPError)` handler, so it re-enters
the retry loop exactly like every other non-2xx status; the
403/429-with-reset-header and 502/503/504 branches sleep and `continue`. -/
def getAux (o : Nat → HttpAttempt) : Nat → Nat → GetResult
  | idx, 0 => .failure idx
  | idx, fuel + 1 =>
    match o idx with
    | .netErr => getAux o (idx + 1) fuel
    | .resp code reset remaining =>
      if code = 401 then getAux o (idx + 1) fuel
      else if (code = 403 ∨ code = 429) ∧ reset.getD "" ≠ "" ∧
          (remaining = some "0" ∨ remaining = none) then
        getAux o (idx + 1) fuel
      else if code = 502 ∨ code = 503 ∨ code = 504 then getAux o (idx + 1) fuel
      else if 400 ≤ code then getAux o (idx + 1) fuel
      else .success code (idx + 1)

/-- The resilient `get` of lisp.py: `max_attempts = 6`. -/
def get (o : Nat → HttpAttempt) : GetResult := getAux o 0 6

end Lisp

namespace HF

/-- Final outcome of huggingface_retrieval_sourcer_excel.py's `get`: a
response, the immediate `RuntimeError("Unauthorized (401)...")`, or the
`RuntimeError("GET failed after retries: ...")` after exhaustion. -/
inductive GetResult where
  | success (code : Nat) (attempts : Nat)
  | unauthorized (attempts : Nat)
  | failure (attempts : Nat)
deriving DecidableEq, Repr

/-- The attempt loop of the HF `get`. A 401 raises `RuntimeError`, which is
not in the `except` tuple, so it propagates immediately; a 404 runs
`resp.raise_for_status()`, whose `HTTPError` is caught and retried like any
other HTTP error. -/
def getAux (o : Nat → HttpAttempt) : Nat → Nat → GetResult
  | idx, 0 => .failure idx
  | idx, fuel + 1 =>
    match o idx with
    | .netErr => getAux o (idx + 1) fuel
    | .resp code _ _ =>
      if code = 401 then .unauthorized (idx + 1)
      else if code = 404 then getAux o (idx + 1) fuel
      else if code = 429 ∨ code = 502 ∨ code = 503 ∨ code = 504 then
        getAux o (idx + 1) fuel
      else if 400 ≤ code then getAux o (idx + 1) fuel
      else .success code (idx + 1)

/-- The resilient `get` of huggingface_retrieval_sourcer_excel.py:
`max_attempts = 6`. -/
def get (o : Nat → HttpAttempt) : GetResult := getAux o 0 6

end HF

end Sourcer

open Sourcer

/-! Helper lemmas about the character-list primitives, used for the
structural claims about the normalizer. -/

/-- The first element surviving `dropWhile` falsifies the predicate. -/
theorem dropWhile_first_false (p : Char → Bool) :
    ∀ (l : List Char) (x : Char) (t : List Char), l.dropWhile p = x :: t → p x = false := by
  intro l
  induction l with
  | nil => intro x t h; simp at h
  | cons c cs ih =>
    intro x t h
    by_cases hc : p c
    · rw [List.dropWhile_cons_of_pos hc] at h
      exact ih x t h
    · rw [List.dropWhile_cons_of_neg hc] at h
      injection h with h1 h2
      subst h1
      simpa using hc

/-- Decomposition of a list into its right-stripped part and the stripped
suffix. -/
theorem rdropW_append (p : Char → Bool) (l : List Char) :
    rdropW p l ++ (l.reverse.takeWhile p).reverse = l := by
  unfold rdropW
  rw [← List.reverse_append, List.takeWhile_append_dropWhile, List.reverse_reverse]

/-- Right-stripping preserves the head of the list. -/
theorem rdropW_first (p : Char → Bool) (l : List Char) (x : Char) (t : List Char)
    (h : rdropW p l = x :: t) : ∃ u, l = x :: u := by
  have h2 := rdropW_append p l
  rw [h] at h2
  obtain ⟨rest, h3⟩ : ∃ rest, x :: t ++ rest = l := ⟨_, h2⟩
  exact ⟨t ++ rest, by rw [← h3]; simp⟩

/-- Right-stripping yields the empty list iff every element satisfies the
predicate. -/
theorem rdropW_eq_nil_iff (p : Char → Bool) (l : List Char) :
    rdropW p l = [] ↔ ∀ c ∈ l, p c = true := by
  unfold rdropW
  rw [List.reverse_eq_nil_iff, List.dropWhile_eq_nil_iff]
  constructor
  · intro h c hc
    exact h c (List.mem_reverse.mpr hc)
  · intro h c hc
    exact h c (List.mem_reverse.mp hc)

/-- Stripping yields the empty list iff the input is all whitespace. -/
theorem stripW_eq_nil_iff (l : List Char) :
    stripW l = [] ↔ ∀ c ∈ l, isPySpace c = true := by
  unfold stripW
  rw [rdropW_eq_nil_iff]
  constructor
  · intro h c hc
    have hdec := List.takeWhile_append_dropWhile isPySpace l
    rw [← hdec] at hc
    rcases List.mem_append.mp hc with h1 | h1
    · exact List.mem_takeWhile_imp h1
    · exact h c h1
  · intro h c hc
    exact h c ((List.dropWhile_sublist _).mem hc)

/-- The first character of a stripped list is not whitespace. -/
theorem stripW_first (l : List Char) (x : Char) (t : List Char)
    (h : stripW l = x :: t) : isPySpace x = false := by
  unfold stripW at h
  obtain ⟨u, hu⟩ := rdropW_first _ _ _ _ h
  exact dropWhile_first_false isPySpace l x u hu

/-- The first character surviving `strip(" ,;|-")` is not in the strip set. -/
theorem stripPunctW_first (l : List Char) (x : Char) (t : List Char)
    (h : stripPunctW l = x :: t) : isStripPunct x = false := by
  unfold stripPunctW at h
  obtain ⟨u, hu⟩ := rdropW_first _ _ _ _ h
  exact dropWhile_first_false isStripPunct l x u hu

/-- Elements surviving `strip(" ,;|-")` come from the input. -/
theorem stripPunctW_subset (l : List Char) (c : Char) (h : c ∈ stripPunctW l) :
    c ∈ l := by
  unfold stripPunctW at h
  have h2 := rdropW_append isStripPunct (l.dropWhile isStripPunct)
  have h3 : c ∈ l.dropWhile isStripPunct := by
    rw [← h2]
    exact List.mem_append.mpr (Or.inl h)
  exact (List.dropWhile_sublist _).mem h3

/-- After whitespace collapsing, the only whitespace character is a plain
space. -/
theorem collapseW_space (l : List Char) :
    ∀ c ∈ collapseW l, isPySpace c = true → c = ' ' := by
  induction l with
  | nil => intro c hc; simp [collapseW] at hc
  | cons a cs ih =>
    intro c hc hsp
    cases cs with
    | nil =>
      by_cases ha : isPySpace a
      · rw [show collapseW [a] = [' '] by simp [collapseW, ha]] at hc
        simpa using hc
      · rw [show collapseW [a] = [a] by simp [collapseW, ha]] at hc
        simp at hc
        subst hc
        simp [hsp] at ha
    | cons d ds =>
      by_cases hads : isPySpace a && isPySpace d
      · rw [show collapseW (a :: d :: ds) = collapseW (d :: ds) by
          simp [collapseW, hads]] at hc
        exact ih c hc hsp
      · rw [show collapseW (a :: d :: ds) =
            (if isPySpace a then ' ' else a) :: collapseW (d :: ds) by
          rw [collapseW, if_neg (by simpa using hads)]] at hc
        rcases List.mem_cons.mp hc with h1 | h1
        · by_cases ha : isPySpace a
          · rwa [if_pos ha] at h1
          · rw [if_neg ha] at h1
            subst h1
            simp [hsp] at ha
        · exact ih c h1 hsp

/-- The trailing-EU suffix rule cannot touch the first character when that
character is not a comma. -/
theorem euSuffixStripW_first (x : Char) (t : List Char) (hx : (x == ',') = false) :
    euSuffixStripW (x :: t) = x :: t ∨ ∃ i, euSuffixStripW (x :: t) = x :: t.take i := by
  have h1 : euSuffixIdx (x :: t) = (euSuffixIdx t).map (· + 1) := by
    simp [euSuffixIdx, hx]
  unfold euSuffixStripW
  rw [h1]
  cases h2 : euSuffixIdx t with
  | none => left; rfl
  | some j =>
    right
    exact ⟨j, by simp [List.take_succ_cons]⟩

/-- Characters in the ASCII lowercase range are not whitespace. -/
theorem isPySpace_ofNat_ascii (n : Nat) (h1 : 97 ≤ n) (h2 : n ≤ 122) :
    isPySpace (Char.ofNat n) = false := by
  interval_cases n <;> decide

/-- Characters in the Latin-1 lowercase range are not whitespace. -/
theorem isPySpace_ofNat_latin (n : Nat) (h1 : 224 ≤ n) (h2 : n ≤ 254) :
    isPySpace (Char.ofNat n) = false := by
  interval_cases n <;> decide

/-- Lowercasing never turns a non-whitespace character into whitespace. -/
theorem pyLowerChar_not_space (c : Char) (h : isPySpace c = false) :
    isPySpace (pyLowerChar c) = false := by
  unfold pyLowerChar
  split_ifs with h1 h2
  · exact isPySpace_ofNat_ascii _ (by omega) (by omega)
  · exact isPySpace_ofNat_latin _ (by omega) (by omega)
  · exact h

/-- No value of the alias table is the empty string. -/
theorem location_map_values_ne_empty : ∀ p ∈ GP.LOCATION_MAP, p.2 ≠ "" := by decide

/-- Looking up the key just inserted yields the inserted value. -/
theorem dictFind_insert_self (k : String) (v : GeoResult) :
    ∀ m : GeoCache, dictFind (dictInsert m k v) k = some v := by
  intro m
  induction m with
  | nil => simp [dictInsert, dictFind]
  | cons p ps ih =>
    by_cases hp : (p.1 == k) = true
    · simp [dictInsert, dictFind, hp]
    · simp [dictInsert, dictFind, hp, ih]

/-- A key found in the cache stays found after any insertion (Python `dict`
assignment only adds or overwrites entries). -/
theorem dictFind_insert_presence (k k2 : String) (v : GeoResult) :
    ∀ m : GeoCache, (dictFind m k).isSome = true →
      (dictFind (dictInsert m k2 v) k).isSome = true := by
  intro m
  induction m with
  | nil => intro h; simp [dictFind] at h
  | cons p ps ih =>
    intro h
    by_cases hp2 : (p.1 == k2) = true
    · have e2 : p.1 = k2 := eq_of_beq hp2
      by_cases hpk : (p.1 == k) = true
      · simp [dictInsert, dictFind, hp2, ← e2, hpk]
      · simp [dictFind, hpk] at h
        simp [dictInsert, dictFind, hp2, ← e2, hpk, h]
    · by_cases hpk : (p.1 == k) = true
      · simp [dictInsert, dictFind, hp2, hpk]
      · simp [dictFind, hpk] at h
        simp [dictInsert, dictFind, hp2, hpk]
        exact ih h

/-- The Google provider's output cache preserves key presence. -/
theorem geocode_google_cache_presence (ak : String) (cache : GeoCache)
    (gnet : GoogleNet) (raw k : String)
    (h : (dictFind cache k).isSome = true) :
    (dictFind (GP.geocode_google ak cache gnet raw).2.1 k).isSome = true := by
  unfold GP.geocode_google
  dsimp only
  repeat' split
  all_goals first
    | exact h
    | exact dictFind_insert_presence k _ _ cache h

/-- The Nominatim provider's output cache preserves key presence. -/
theorem geocode_nominatim_cache_presence (cache : GeoCache)
    (nnet : NomNet) (raw k : String)
    (h : (dictFind cache k).isSome = true) :
    (dictFind (GP.geocode_nominatim cache nnet raw).2.1 k).isSome = true := by
  unfold GP.geocode_nominatim
  dsimp only
  repeat' split
  all_goals first
    | exact h
    | exact dictFind_insert_presence k _ _ cache h

/-- The dispatcher's output cache preserves key presence. -/
theorem geocode_and_normalize_cache_presence (gp ak : String) (cache : GeoCache)
    (gnet : GoogleNet) (nnet : NomNet) (raw k : String)
    (h : (dictFind cache k).isSome = true) :
    (dictFind (GP.geocode_and_normalize gp ak cache gnet nnet raw).2.1 k).isSome
      = true := by
  unfold GP.geocode_and_normalize
  dsimp only
  split
  · split
    · exact geocode_google_cache_presence ak cache gnet raw k h
    · split
      · exact geocode_nominatim_cache_presence cache nnet raw k h
      · exact h
  · split
    · rw [if_pos rfl]
      exact geocode_google_cache_presence ak cache gnet raw k h
    · rw [if_neg (by decide), if_pos rfl]
      exact geocode_nominatim_cache_presence cache nnet raw k h

/-- One Google-provider invocation issues at most one network call. -/
theorem geocode_google_calls_le (ak : String) (cache : GeoCache)
    (gnet : GoogleNet) (raw : String) :
    (GP.geocode_google ak cache gnet raw).2.2 ≤ 1 := by
  unfold GP.geocode_google
  dsimp only
  repeat' split
  all_goals simp

/-- One Nominatim-provider invocation issues at most one network call. -/
theorem geocode_nominatim_calls_le (cache : GeoCache) (nnet : NomNet) (raw : String) :
    (GP.geocode_nominatim cache nnet raw).2.2 ≤ 1 := by
  unfold GP.geocode_nominatim
  dsimp only
  repeat' split
  all_goals simp

/-- One dispatcher invocation issues at most one network call. -/
theorem geocode_and_normalize_calls_le (gp ak : String) (cache : GeoCache)
    (gnet : GoogleNet) (nnet : NomNet) (raw : String) :
    (GP.geocode_and_normalize gp ak cache gnet nnet raw).2.2 ≤ 1 := by
  unfold GP.geocode_and_normalize
  dsimp only
  split
  · split
    · exact geocode_google_calls_le ak cache gnet raw
    · split
      · exact geocode_nominatim_calls_le cache nnet raw
      · simp
  · split
    · rw [if_pos rfl]
      exact geocode_google_calls_le ak cache gnet raw
    · rw [if_neg (by decide), if_pos rfl]
      exact geocode_nominatim_calls_le cache nnet raw

/-- With the input's cache key present, the Google provider performs no
network call. -/
theorem geocode_google_calls_cached (ak : String) (cache : GeoCache)
    (gnet : GoogleNet) (raw : String)
    (h : (dictFind cache ("google" ++ ":" ++ pyLower (pyStrip raw))).isSome = true) :
    (GP.geocode_google ak cache gnet raw).2.2 = 0 := by
  unfold GP.geocode_google
  dsimp only
  split
  · rfl
  · split
    · rfl
    · split
      · rfl
      next heq =>
        rw [heq] at h
        simp at h

/-- With the input's cache key present, the Nominatim provider performs no
network call. -/
theorem geocode_nominatim_calls_cached (cache : GeoCache)
    (nnet : NomNet) (raw : String)
    (h : (dictFind cache ("nominatim" ++ ":" ++ pyLower (pyStrip raw))).isSome = true) :
    (GP.geocode_nominatim cache nnet raw).2.2 = 0 := by
  unfold GP.geocode_nominatim
  dsimp only
  split
  · rfl
  · split
    · rfl
    next heq =>
      rw [heq] at h
      simp at h

/-- With the active provider's cache key present, the dispatcher performs no
network call. -/
theorem geocode_and_normalize_calls_cached (gp ak : String) (cache : GeoCache)
    (gnet : GoogleNet) (nnet : NomNet) (raw : String)
    (h : (dictFind cache (GP.activeCacheKey gp ak raw)).isSome = true) :
    (GP.geocode_and_normalize gp ak cache gnet nnet raw).2.2 = 0 := by
  unfold GP.activeCacheKey GP.defaultProviderName at h
  unfold GP.geocode_and_normalize
  dsimp only
  split
  next hg =>
    split
    next hgg =>
      apply geocode_google_calls_cached
      rw [if_pos hg, hgg] at h
      exact h
    next hgg =>
      split
      next hgn =>
        apply geocode_nominatim_calls_cached
        rw [if_pos hg, hgn] at h
        exact h
      next hgn => rfl
  next hg =>
    split
    next hn =>
      rw [if_pos rfl]
      apply geocode_google_calls_cached
      rw [if_neg hg, if_pos hn] at h
      exact h
    next hn =>
      rw [if_neg (by decide), if_pos rfl]
      apply geocode_nominatim_calls_cached
      rw [if_neg hg, if_neg hn] at h
      exact h

/-- One pipeline loop iteration adds at most one network call. -/
theorem geocodeStep_calls_le (gp ak : String) (gorc : String → GoogleNet)
    (norc : String → NomNet) (st : GP.PipeState) (loc : String) :
    (GP.geocodeStep gp ak gorc norc st loc).calls ≤ st.calls + 1 := by
  unfold GP.geocodeStep
  dsimp only
  split
  · simp
  · exact Nat.add_le_add_left
      (geocode_and_normalize_calls_le gp ak st.cache (gorc loc) (norc loc) loc) st.calls

/-- One pipeline loop iteration adds no network call when the value's cache
key is already present. -/
theorem geocodeStep_calls_cached (gp ak : String) (gorc : String → GoogleNet)
    (norc : String → NomNet) (st : GP.PipeState) (loc : String)
    (h : (dictFind st.cache (GP.activeCacheKey gp ak loc)).isSome = true) :
    (GP.geocodeStep gp ak gorc norc st loc).calls = st.calls := by
  unfold GP.geocodeStep
  dsimp only
  split
  · rfl
  · have h0 := geocode_and_normalize_calls_cached gp ak st.cache (gorc loc)
      (norc loc) loc h
    show st.calls + _ = st.calls
    omega

/-- One pipeline loop iteration preserves cache key presence. -/
theorem geocodeStep_cache_presence (gp ak : String) (gorc : String → GoogleNet)
    (norc : String → NomNet) (st : GP.PipeState) (loc : String) (k : String)
    (h : (dictFind st.cache k).isSome = true) :
    (dictFind (GP.geocodeStep gp ak gorc norc st loc).cache k).isSome = true := by
  unfold GP.geocodeStep
  dsimp only
  split
  · exact h
  · exact geocode_and_normalize_cache_presence gp ak st.cache (gorc loc)
      (norc loc) loc k h

/-- Filtering with a stronger predicate keeps at most as many elements. -/
theorem length_filter_mono (p q : String → Bool) (l : List String)
    (h : ∀ x, p x = true → q x = true) :
    (l.filter p).length ≤ (l.filter q).length := by
  induction l with
  | nil => simp
  | cons a t ih =>
    by_cases hp : p a = true
    · rw [List.filter_cons_of_pos hp, List.filter_cons_of_pos (h a hp)]
      simpa using ih
    · rw [List.filter_cons_of_neg hp]
      by_cases hq : q a = true
      · rw [List.filter_cons_of_pos hq]
        exact Nat.le_trans ih (Nat.le_succ _)
      · rw [List.filter_cons_of_neg hq]
        exact ih

/-- The unique-value geocoding loop issues at most one network call per
value whose active cache key is missing from the loop's starting cache. -/
theorem foldl_calls_le (gp ak : String) (gorc : String → GoogleNet)
    (norc : String → NomNet) :
    ∀ (l : List String) (st : GP.PipeState),
    (l.foldl (GP.geocodeStep gp ak gorc norc) st).calls ≤
      st.calls + (l.filter
        (fun v => !(dictFind st.cache (GP.activeCacheKey gp ak v)).isSome)).length := by
  intro l
  induction l with
  | nil => intro st; simp
  | cons v vs ih =>
    intro st
    rw [List.foldl_cons]
    have hmono : ∀ w,
        ((fun u => !(dictFind (GP.geocodeStep gp ak gorc norc st v).cache
          (GP.activeCacheKey gp ak u)).isSome) w) = true →
        ((fun u => !(dictFind st.cache (GP.activeCacheKey gp ak u)).isSome) w) = true := by
      intro w hw
      cases hb : (dictFind st.cache (GP.activeCacheKey gp ak w)).isSome with
      | false => simp [hb]
      | true =>
        exfalso
        have hpres := geocodeStep_cache_presence gp ak gorc norc st v
          (GP.activeCacheKey gp ak w) hb
        dsimp only at hw
        rw [hpres] at hw
        simp at hw
    have hfil := length_filter_mono _ _ vs hmono
    have h2 := ih (GP.geocodeStep gp ak gorc norc st v)
    by_cases hv : (dictFind st.cache (GP.activeCacheKey gp ak v)).isSome = true
    · have h1 := geocodeStep_calls_cached gp ak gorc norc st v hv
      rw [List.filter_cons_of_neg (by simp [hv])]
      omega
    · have h1 := geocodeStep_calls_le gp ak gorc norc st v
      have hvf : (dictFind st.cache (GP.activeCacheKey gp ak v)).isSome = false := by
        cases hb : (dictFind st.cache (GP.activeCacheKey gp ak v)).isSome with
        | false => rfl
        | true => exact absurd hb hv
      rw [List.filter_cons_of_pos (by simp [hvf])]
      simp only [List.length_cons]
      omega

/-- A string built from a non-empty character list is not the empty string. -/
theorem string_mk_ne_empty (l : List Char) (h : l ≠ []) : (⟨l⟩ : String) ≠ "" := by
  intro heq
  apply h
  have h2 : (String.mk l).data = String.data "" := congrArg String.data heq
  exact h2

/-- Lowercasing a non-empty stripped list and stripping again yields a
non-empty list. -/
theorem lower_strip_ne_nil (l : List Char) (h : stripW l ≠ []) :
    stripW ((stripW l).map pyLowerChar) ≠ [] := by
  cases hsc : stripW l with
  | nil => exact absurd hsc h
  | cons x t =>
    have hx : isPySpace x = false := stripW_first l x t hsc
    intro hnil
    have hmem : pyLowerChar x ∈ (x :: t).map pyLowerChar :=
      List.mem_map_of_mem _ (List.mem_cons_self x t)
    have hsp := (stripW_eq_nil_iff _).mp hnil (pyLowerChar x) hmem
    exact absurd hsp (by simp [pyLowerChar_not_space x hx])

/-- In the CLEANED branch of the normalizer, the final strip of the
suffix-stripped text is non-empty: after collapsing, punctuation-stripping
and whitespace-stripping, the first character is neither whitespace nor a
comma, so the trailing-EU rule keeps it and the final strip keeps it too. -/
theorem cleaned_branch_ne_nil (s1 : List Char)
    (h3 : stripW (stripPunctW (collapseW s1)) ≠ []) :
    stripW (euSuffixStripW (stripW (stripPunctW (collapseW s1)))) ≠ [] := by
  cases hu : stripPunctW (collapseW s1) with
  | nil =>
    exfalso
    apply h3
    rw [hu]
    rfl
  | cons y v =>
    have hy_punct : isStripPunct y = false := stripPunctW_first _ y v hu
    have hy_space : isPySpace y = false := by
      by_contra hsp
      have hsp2 : isPySpace y = true := by
        cases hb : isPySpace y
        · exact absurd hb hsp
        · rfl
      have hy_mem : y ∈ collapseW s1 :=
        stripPunctW_subset _ y (by rw [hu]; exact List.mem_cons_self y v)
      have hy_sp : y = ' ' := collapseW_space _ y hy_mem hsp2
      rw [hy_sp] at hy_punct
      exact absurd hy_punct (by decide)
    have hdrop : (y :: v).dropWhile isPySpace = y :: v :=
      List.dropWhile_cons_of_neg (by simp [hy_space])
    have hyv : stripW (y :: v) = rdropW isPySpace (y :: v) := by
      unfold stripW
      rw [hdrop]
    have hne : rdropW isPySpace (y :: v) ≠ [] := by
      intro hnil
      have hall := (rdropW_eq_nil_iff _ _).mp hnil y (List.mem_cons_self y v)
      exact absurd hall (by simp [hy_space])
    cases hr : rdropW isPySpace (y :: v) with
    | nil => exact absurd hr hne
    | cons x t =>
      obtain ⟨u2, hu2⟩ := rdropW_first _ _ _ _ hr
      injection hu2 with hxy _
      have hx_space : isPySpace x = false := by rw [← hxy]; exact hy_space
      have hx_punct : isStripPunct x = false := by rw [← hxy]; exact hy_punct
      have hx_comma : (x == ',') = false := by
        by_contra hcm
        have hcm2 : (x == ',') = true := by
          cases hb : (x == ',')
          · exact absurd hb hcm
          · rfl
        have hx : x = ',' := by simpa using hcm2
        rw [hx] at hx_punct
        exact absurd hx_punct (by decide)
      rw [hyv, hr]
      intro hnil
      rcases euSuffixStripW_first x t hx_comma with he | ⟨i, he⟩
      · rw [he] at hnil
        have hsp := (stripW_eq_nil_iff _).mp hnil x (List.mem_cons_self x t)
        exact absurd hsp (by simp [hx_space])
      · rw [he] at hnil
        have hsp := (stripW_eq_nil_iff _).mp hnil x (List.mem_cons_self x _)
        exact absurd hsp (by simp [hx_space])

/-- Output shape of the normalizer on a string input: exactly one of the
four hints, with a non-empty cleaned text except in the EMPTY case. -/
theorem normalize_cases (r : String) :
    GP.normalize_location_text (some r) = ("", "EMPTY") ∨
    (∃ c, GP.normalize_location_text (some r) = (c, "SKIP") ∧ c ≠ "") ∨
    (∃ c, GP.normalize_location_text (some r) = (c, "MAPPED") ∧ c ≠ "") ∨
    (∃ c, GP.normalize_location_text (some r) = (c, "CLEANED") ∧ c ≠ "") := by
  unfold GP.normalize_location_text
  dsimp only
  split
  · exact Or.inl rfl
  next h1 =>
    split
    next h2 =>
      refine Or.inr (Or.inl ⟨_, rfl, ?_⟩)
      exact string_mk_ne_empty _
        (lower_strip_ne_nil _ (fun hnil => h1 (by rw [hnil]; rfl)))
    next h2 =>
      split
      · exact Or.inl rfl
      next h3 =>
        split
        next h4 =>
          refine Or.inr (Or.inl ⟨_, rfl, ?_⟩)
          apply string_mk_ne_empty
          intro hmapnil
          have hb := List.map_eq_nil_iff.mp hmapnil
          exact h3 (by rw [hb]; rfl)
        next h4 =>
          split
          next v heq =>
            refine Or.inr (Or.inr (Or.inl ⟨v, rfl, ?_⟩))
            obtain ⟨p, hp, hpv⟩ := Option.map_eq_some'.mp heq
            rw [← hpv]
            exact location_map_values_ne_empty p (List.mem_of_find?_eq_some hp)
          next heq =>
            refine Or.inr (Or.inr (Or.inr ⟨_, rfl, ?_⟩))
            apply string_mk_ne_empty
            exact cleaned_branch_ne_nil _ (fun hnil => h3 (by rw [hnil]; rfl))

/-- Every value of the alias table re-normalizes to itself: the table does
not map onto itself transitively. -/
theorem location_map_values_stable :
    ∀ p ∈ GP.LOCATION_MAP, (GP.normalize_location_text (some p.2)).1 = p.2 := by
  decide

/-- C9: `normalize_location_text` maps the four specified concrete inputs as
stated: the alias "sf", the cleanable "  Remote Only ", the empty string, and
the sentinel "Worldwide". -/
theorem normalize_concrete_examples :
    GP.normalize_location_text (some "sf") = ("San Francisco, CA, USA", "MAPPED") ∧
    GP.normalize_location_text (some "  Remote Only ") = ("remote", "SKIP") ∧
    GP.normalize_location_text (some "") = ("", "EMPTY") ∧
    GP.normalize_location_text (some "Worldwide") = ("worldwide", "SKIP") :=
  ⟨by decide, by decide, by decide, by decide⟩

/-- C10: `normalize_location_text` returns hint EMPTY exactly when the
returned cleaned text is the empty string, and the hint is always one of
EMPTY, SKIP, MAPPED, CLEANED. -/
theorem normalize_hint_empty_iff (raw : Option String) :
    ((GP.normalize_location_text raw).2 = "EMPTY" ↔
      (GP.normalize_location_text raw).1 = "") ∧
    ((GP.normalize_location_text raw).2 = "EMPTY" ∨
      (GP.normalize_location_text raw).2 = "SKIP" ∨
      (GP.normalize_location_text raw).2 = "MAPPED" ∨
      (GP.normalize_location_text raw).2 = "CLEANED") := by
  cases raw with
  | none =>
    exact ⟨⟨fun _ => rfl, fun _ => rfl⟩, Or.inl rfl⟩
  | some r =>
    rcases normalize_cases r with h | ⟨c, h, hc⟩ | ⟨c, h, hc⟩ | ⟨c, h, hc⟩ <;> rw [h]
    · exact ⟨⟨fun _ => rfl, fun _ => rfl⟩, Or.inl rfl⟩
    · exact ⟨⟨fun hEq => absurd (show ("SKIP" : String) = "EMPTY" from hEq) (by decide),
        fun hEq => absurd hEq hc⟩, Or.inr (Or.inl rfl)⟩
    · exact ⟨⟨fun hEq => absurd (show ("MAPPED" : String) = "EMPTY" from hEq) (by decide),
        fun hEq => absurd hEq hc⟩, Or.inr (Or.inr (Or.inl rfl))⟩
    · exact ⟨⟨fun hEq => absurd (show ("CLEANED" : String) = "EMPTY" from hEq) (by decide),
        fun hEq => absurd hEq hc⟩, Or.inr (Or.inr (Or.inr rfl))⟩

/-- C2 amended: the normalizer is idempotent on its MAPPED outputs - if
`normalize_location_text x` yields cleaned text `c` with hint MAPPED, then
normalizing `c` again returns cleaned text `c`. (For CLEANED outputs
idempotence can fail; see the counterexample.) -/
theorem normalize_mapped_idempotent (x : Option String) (c : String)
    (h : GP.normalize_location_text x = (c, "MAPPED")) :
    (GP.normalize_location_text (some c)).1 = c := by
  cases x with
  | none =>
    exact absurd (show ("EMPTY" : String) = "MAPPED" from congrArg Prod.snd h) (by decide)
  | some r =>
    unfold GP.normalize_location_text at h
    dsimp only at h
    split at h
    · exact absurd (show ("EMPTY" : String) = "MAPPED" from congrArg Prod.snd h) (by decide)
    · split at h
      · exact absurd (show ("SKIP" : String) = "MAPPED" from congrArg Prod.snd h) (by decide)
      · split at h
        · exact absurd (show ("EMPTY" : String) = "MAPPED" from congrArg Prod.snd h) (by decide)
        · split at h
          · exact absurd (show ("SKIP" : String) = "MAPPED" from congrArg Prod.snd h) (by decide)
          · split at h
            next v heq =>
              have hvc : v = c := congrArg Prod.fst h
              obtain ⟨p, hp, hpv⟩ := Option.map_eq_some'.mp heq
              have hst := location_map_values_stable p (List.mem_of_find?_eq_some hp)
              rw [hpv, hvc] at hst
              exact hst
            next heq =>
              exact absurd (show ("CLEANED" : String) = "MAPPED" from congrArg Prod.snd h)
                (by decide)

/-- Witness for the amended C2 theorem at the concrete alias "sf". -/
theorem normalize_mapped_idempotent_witness :
    GP.normalize_location_text (some "sf") = ("San Francisco, CA, USA", "MAPPED") ∧
    (GP.normalize_location_text (some "San Francisco, CA, USA")).1 =
      "San Francisco, CA, USA" :=
  ⟨by decide,
   normalize_mapped_idempotent (some "sf") "San Francisco, CA, USA" (by decide)⟩

/-- C2 counterexample: on the input "Earth, e​u" (a zero-width space
inside "eu", so the word-boundary substitution leaves it, the zero-width
strip then produces a trailing ", eu" that only the final suffix rule
removes - after the sentinel re-check) the normalizer yields
("Earth", CLEANED), but re-normalizing "Earth" yields cleaned text "earth",
which differs. -/
theorem normalize_idempotence_cex :
    GP.normalize_location_text (some "Earth, e​u") = ("Earth", "CLEANED") ∧
    GP.normalize_location_text (some "Earth") = ("earth", "SKIP") ∧
    ("earth" : String) ≠ "Earth" :=
  ⟨by decide, by decide, by decide⟩

/-- C6 (code bug witness): in lisp.py, a 401 response runs
`resp.raise_for_status()`, but the resulting `HTTPError` is caught by the
retry handler, so the fetcher retries after a 401 (here succeeding on the
second attempt) and a persistent 401 consumes all 6 attempts before the
generic "GET failed after retries" error; only the HF variant fails
immediately on the first attempt. -/
theorem lisp_get_retries_after_401 :
    Lisp.get (fun i => if i = 0 then .resp 401 none none else .resp 200 none none) =
      .success 200 2 ∧
    Lisp.get (fun _ => .resp 401 none none) = .failure 6 ∧
    HF.get (fun _ => .resp 401 none none) = .unauthorized 1 :=
  ⟨rfl, rfl, rfl⟩

/-- C7 counterexample: a 404 response does not make the fetcher fail
immediately - in both scripts the `HTTPError` raised for it is caught by the
retry handler, so a 404 on the first attempt is followed by a second attempt
(here returning the successful response). -/
theorem get_404_retries_cex :
    HF.get (fun i => if i = 0 then .resp 404 none none else .resp 200 none none) =
      .success 200 2 ∧
    Lisp.get (fun i => if i = 0 then .resp 404 none none else .resp 200 none none) =
      .success 200 2 :=
  ⟨rfl, rfl⟩

/-- C7 amended: an HTTP 404 is retried like any other HTTP error; a
persistent 404 fails only after the full budget of 6 attempts, with the
"GET failed after retries" error, in both fetcher variants. -/
theorem get_404_exhausts_attempts :
    HF.get (fun _ => .resp 404 none none) = .failure 6 ∧
    Lisp.get (fun _ => .resp 404 none none) = .failure 6 :=
  ⟨rfl, rfl⟩

/-- C3 counterexample: with no Google API key configured, `geocode_google`
returns `NO_API_KEY` even when the input's cache key is present in the
cache, because the key check precedes the cache lookup; the cached result is
not returned verbatim. -/
theorem cache_hit_no_api_key_cex :
    dictFind [("google:paris", geo_no_match "google")] "google:paris" =
      some (geo_no_match "google") ∧
    (GP.geocode_google "" [("google:paris", geo_no_match "google")]
      GoogleNet.exn "Paris").1.owner_geocode_status = "NO_API_KEY" ∧
    (GP.geocode_google "" [("google:paris", geo_no_match "google")]
      GoogleNet.exn "Paris").1 ≠ geo_no_match "google" :=
  ⟨by decide, by decide, by decide⟩

/-- C4 counterexample: in lisp.py both providers label an empty (or
whitespace-only) input `SKIPPED`, not `EMPTY` - the `"SKIPPED" if raw else
"EMPTY"` distinction exists only in geocode_postprocess.py. -/
theorem lisp_empty_input_status_cex :
    (Lisp.geocode_google "key" [] GoogleNet.exn "").1.owner_geocode_status = "SKIPPED" ∧
    (Lisp.geocode_nominatim [] NomNet.exn "  ").1.owner_geocode_status = "SKIPPED" ∧
    ("SKIPPED" : String) ≠ "EMPTY" :=
  ⟨by decide, by decide, by decide⟩

/-- C3 amended: Nominatim always, and Google whenever an API key is
configured, return a cached result verbatim with zero network calls for a
non-empty, non-sentinel input whose cache key is present; and two raw
strings that lowercase-trim identically share one cache key. (With no API
key configured, geocode_google returns NO_API_KEY before consulting the
cache - see the counterexample - though still with zero network calls.) -/
theorem cache_hit_returns_cached (ak : String) (cache : GeoCache) (gnet : GoogleNet)
    (nnet : NomNet) (raw raw2 : String) (r : GeoResult) :
    (pyStrip raw ≠ "" →
      GP.BAD_LOCATIONS.contains (pyLower (pyStrip raw)) = false →
      ak ≠ "" →
      dictFind cache ("google" ++ ":" ++ pyLower (pyStrip raw)) = some r →
      GP.geocode_google ak cache gnet raw = (r, cache, 0)) ∧
    (pyStrip raw ≠ "" →
      GP.BAD_LOCATIONS.contains (pyLower (pyStrip raw)) = false →
      dictFind cache ("nominatim" ++ ":" ++ pyLower (pyStrip raw)) = some r →
      GP.geocode_nominatim cache nnet raw = (r, cache, 0)) ∧
    (pyStrip raw ≠ "" →
      Lisp.BAD_LOCATIONS.contains (pyLower (pyStrip raw)) = false →
      ak ≠ "" →
      dictFind cache ("google" ++ ":" ++ pyLower (pyStrip raw)) = some r →
      Lisp.geocode_google ak cache gnet raw = (r, cache, 0)) ∧
    (pyStrip raw ≠ "" →
      Lisp.BAD_LOCATIONS.contains (pyLower (pyStrip raw)) = false →
      dictFind cache ("nominatim" ++ ":" ++ pyLower (pyStrip raw)) = some r →
      Lisp.geocode_nominatim cache nnet raw = (r, cache, 0)) ∧
    (pyLower (pyStrip raw) = pyLower (pyStrip raw2) →
      "google" ++ ":" ++ pyLower (pyStrip raw) =
        "google" ++ ":" ++ pyLower (pyStrip raw2)) := by
  refine ⟨?_, ?_, ?_, ?_, ?_⟩
  · intro h1 h2 h3 h4
    have hno : ¬(pyStrip raw = "" ∨
        GP.BAD_LOCATIONS.contains (pyLower (pyStrip raw)) = true) := by
      rintro (hx | hx)
      · exact h1 hx
      · rw [h2] at hx
        exact Bool.false_ne_true hx
    unfold GP.geocode_google
    dsimp only
    rw [if_neg hno, if_neg h3, h4]
  · intro h1 h2 h3
    have hno : ¬(pyStrip raw = "" ∨
        GP.BAD_LOCATIONS.contains (pyLower (pyStrip raw)) = true) := by
      rintro (hx | hx)
      · exact h1 hx
      · rw [h2] at hx
        exact Bool.false_ne_true hx
    unfold GP.geocode_nominatim
    dsimp only
    rw [if_neg hno, h3]
  · intro h1 h2 h3 h4
    have hno : ¬(pyStrip raw = "" ∨
        Lisp.BAD_LOCATIONS.contains (pyLower (pyStrip raw)) = true) := by
      rintro (hx | hx)
      · exact h1 hx
      · rw [h2] at hx
        exact Bool.false_ne_true hx
    unfold Lisp.geocode_google
    dsimp only
    rw [if_neg hno, if_neg h3, h4]
  · intro h1 h2 h3
    have hno : ¬(pyStrip raw = "" ∨
        Lisp.BAD_LOCATIONS.contains (pyLower (pyStrip raw)) = true) := by
      rintro (hx | hx)
      · exact h1 hx
      · rw [h2] at hx
        exact Bool.false_ne_true hx
    unfold Lisp.geocode_nominatim
    dsimp only
    rw [if_neg hno, h3]
  · intro h
    rw [h]

/-- Witness for the amended C3 theorem: both providers return the cached
entry verbatim at a concrete cache hit. -/
theorem cache_hit_returns_cached_witness :
    GP.geocode_google "k" [("google:paris", geo_no_match "google")]
      GoogleNet.exn " Paris " =
      (geo_no_match "google", [("google:paris", geo_no_match "google")], 0) ∧
    GP.geocode_nominatim [("nominatim:paris", geo_no_match "nominatim")]
      NomNet.exn "Paris" =
      (geo_no_match "nominatim", [("nominatim:paris", geo_no_match "nominatim")], 0) :=
  ⟨(cache_hit_returns_cached "k" [("google:paris", geo_no_match "google")]
      GoogleNet.exn NomNet.exn " Paris " " Paris " (geo_no_match "google")).1
      (by decide) (by decide) (by decide) (by decide),
   (cache_hit_returns_cached "k" [("nominatim:paris", geo_no_match "nominatim")]
      GoogleNet.exn NomNet.exn "Paris" "Paris" (geo_no_match "nominatim")).2.1
      (by decide) (by decide) (by decide)⟩

/-- C4 amended: for empty trimmed input the geocode_postprocess.py providers
return status EMPTY while the lisp.py providers return status SKIPPED; for
sentinel input all four return SKIPPED; in every such case the cache is
unchanged and zero network calls are made. -/
theorem provider_prechecks_no_call (ak : String) (cache : GeoCache)
    (gnet : GoogleNet) (nnet : NomNet) (raw : String) :
    (pyStrip raw = "" →
      GP.geocode_google ak cache gnet raw = (geo_empty "google", cache, 0) ∧
      GP.geocode_nominatim cache nnet raw = (geo_empty "nominatim", cache, 0) ∧
      Lisp.geocode_google ak cache gnet raw =
        ({ geo_empty "google" with owner_geocode_status := "SKIPPED" }, cache, 0) ∧
      Lisp.geocode_nominatim cache nnet raw =
        ({ geo_empty "nominatim" with owner_geocode_status := "SKIPPED" }, cache, 0)) ∧
    (pyStrip raw ≠ "" →
      GP.BAD_LOCATIONS.contains (pyLower (pyStrip raw)) = true →
      GP.geocode_google ak cache gnet raw =
        ({ geo_empty "google" with owner_geocode_status := "SKIPPED" }, cache, 0) ∧
      GP.geocode_nominatim cache nnet raw =
        ({ geo_empty "nominatim" with owner_geocode_status := "SKIPPED" }, cache, 0)) ∧
    (pyStrip raw ≠ "" →
      Lisp.BAD_LOCATIONS.contains (pyLower (pyStrip raw)) = true →
      Lisp.geocode_google ak cache gnet raw =
        ({ geo_empty "google" with owner_geocode_status := "SKIPPED" }, cache, 0) ∧
      Lisp.geocode_nominatim cache nnet raw =
        ({ geo_empty "nominatim" with owner_geocode_status := "SKIPPED" }, cache, 0)) := by
  refine ⟨?_, ?_, ?_⟩
  · intro h
    refine ⟨?_, ?_, ?_, ?_⟩
    · unfold GP.geocode_google
      dsimp only
      rw [if_pos (Or.inl h), h]
      rfl
    · unfold GP.geocode_nominatim
      dsimp only
      rw [if_pos (Or.inl h), h]
      rfl
    · unfold Lisp.geocode_google
      dsimp only
      rw [if_pos (Or.inl h)]
    · unfold Lisp.geocode_nominatim
      dsimp only
      rw [if_pos (Or.inl h)]
  · intro h1 h2
    refine ⟨?_, ?_⟩
    · unfold GP.geocode_google
      dsimp only
      rw [if_pos (Or.inr h2), if_pos h1]
    · unfold GP.geocode_nominatim
      dsimp only
      rw [if_pos (Or.inr h2), if_pos h1]
  · intro h1 h2
    refine ⟨?_, ?_⟩
    · unfold Lisp.geocode_google
      dsimp only
      rw [if_pos (Or.inr h2)]
    · unfold Lisp.geocode_nominatim
      dsimp only
      rw [if_pos (Or.inr h2)]

/-- Witness for the amended C4 theorem at an empty and a sentinel input. -/
theorem provider_prechecks_no_call_witness :
    GP.geocode_google "k" [] GoogleNet.exn "" = (geo_empty "google", [], 0) ∧
    GP.geocode_google "k" [] GoogleNet.exn " Remote " =
      ({ geo_empty "google" with owner_geocode_status := "SKIPPED" }, [], 0) ∧
    Lisp.geocode_nominatim [] NomNet.exn " Remote " =
      ({ geo_empty "nominatim" with owner_geocode_status := "SKIPPED" }, [], 0) :=
  ⟨((provider_prechecks_no_call "k" [] GoogleNet.exn NomNet.exn "").1 (by decide)).1,
   ((provider_prechecks_no_call "k" [] GoogleNet.exn NomNet.exn " Remote ").2.1
      (by decide) (by decide)).1,
   ((provider_prechecks_no_call "k" [] GoogleNet.exn NomNet.exn " Remote ").2.2
      (by decide) (by decide)).2⟩

/-- C5: when anything inside the provider's try-block raises (network call
or parsing), the provider absorbs it: the result carries status ERROR and is
stored in the cache under the input's cache key. Totality of the embedding's
provider functions models the "never raises to the caller" half of the
contract. -/
theorem provider_exception_error_cached (ak : String) (cache : GeoCache)
    (raw : String) :
    (pyStrip raw ≠ "" →
      GP.BAD_LOCATIONS.contains (pyLower (pyStrip raw)) = false →
      ak ≠ "" →
      dictFind cache ("google" ++ ":" ++ pyLower (pyStrip raw)) = none →
      (GP.geocode_google ak cache GoogleNet.exn raw).1.owner_geocode_status =
        "ERROR" ∧
      dictFind (GP.geocode_google ak cache GoogleNet.exn raw).2.1
          ("google" ++ ":" ++ pyLower (pyStrip raw)) =
        some (GP.geocode_google ak cache GoogleNet.exn raw).1) ∧
    (pyStrip raw ≠ "" →
      GP.BAD_LOCATIONS.contains (pyLower (pyStrip raw)) = false →
      dictFind cache ("nominatim" ++ ":" ++ pyLower (pyStrip raw)) = none →
      (GP.geocode_nominatim cache NomNet.exn raw).1.owner_geocode_status =
        "ERROR" ∧
      dictFind (GP.geocode_nominatim cache NomNet.exn raw).2.1
          ("nominatim" ++ ":" ++ pyLower (pyStrip raw)) =
        some (GP.geocode_nominatim cache NomNet.exn raw).1) := by
  constructor
  · intro h1 h2 h3 h4
    have he : GP.geocode_google ak cache GoogleNet.exn raw =
        ({ geo_no_match "google" with owner_geocode_status := "ERROR" },
          dictInsert cache ("google" ++ ":" ++ pyLower (pyStrip raw))
            { geo_no_match "google" with owner_geocode_status := "ERROR" }, 1) := by
      have hno : ¬(pyStrip raw = "" ∨
          GP.BAD_LOCATIONS.contains (pyLower (pyStrip raw)) = true) := by
        rintro (hx | hx)
        · exact h1 hx
        · rw [h2] at hx
          exact Bool.false_ne_true hx
      unfold GP.geocode_google
      dsimp only
      rw [if_neg hno, if_neg h3, h4]
    rw [he]
    exact ⟨rfl, dictFind_insert_self _ _ cache⟩
  · intro h1 h2 h3
    have he : GP.geocode_nominatim cache NomNet.exn raw =
        ({ geo_no_match "nominatim" with owner_geocode_status := "ERROR" },
          dictInsert cache ("nominatim" ++ ":" ++ pyLower (pyStrip raw))
            { geo_no_match "nominatim" with owner_geocode_status := "ERROR" }, 1) := by
      have hno : ¬(pyStrip raw = "" ∨
          GP.BAD_LOCATIONS.contains (pyLower (pyStrip raw)) = true) := by
        rintro (hx | hx)
        · exact h1 hx
        · rw [h2] at hx
          exact Bool.false_ne_true hx
      unfold GP.geocode_nominatim
      dsimp only
      rw [if_neg hno, h3]
    rw [he]
    exact ⟨rfl, dictFind_insert_self _ _ cache⟩

/-- Witness for the C5 theorem at a concrete non-sentinel input and an empty
cache. -/
theorem provider_exception_error_cached_witness :
    (GP.geocode_google "k" [] GoogleNet.exn "Paris").1.owner_geocode_status =
      "ERROR" ∧
    dictFind (GP.geocode_google "k" [] GoogleNet.exn "Paris").2.1
        ("google" ++ ":" ++ pyLower (pyStrip "Paris")) =
      some (GP.geocode_google "k" [] GoogleNet.exn "Paris").1 :=
  (provider_exception_error_cached "k" [] "Paris").1
    (by decide) (by decide) (by decide) (by decide)

/-- C8: the dispatcher selects geocode_google for "google", geocode_nominatim
for "nominatim", defaults to google exactly when an API key is configured
(nominatim otherwise), and returns UNKNOWN_PROVIDER with zero network calls
for any other explicit provider name - in both scripts. -/
theorem geocode_dispatch_spec (gp ak : String) (cache : GeoCache)
    (gnet : GoogleNet) (nnet : NomNet) (raw : String) :
    (GP.geocode_and_normalize "google" ak cache gnet nnet raw =
      GP.geocode_google ak cache gnet raw) ∧
    (GP.geocode_and_normalize "nominatim" ak cache gnet nnet raw =
      GP.geocode_nominatim cache nnet raw) ∧
    (ak ≠ "" → GP.geocode_and_normalize "" ak cache gnet nnet raw =
      GP.geocode_google ak cache gnet raw) ∧
    (ak = "" → GP.geocode_and_normalize "" ak cache gnet nnet raw =
      GP.geocode_nominatim cache nnet raw) ∧
    (gp ≠ "google" → gp ≠ "nominatim" → gp ≠ "" →
      GP.geocode_and_normalize gp ak cache gnet nnet raw =
        ({ geo_empty gp with owner_geocode_status := "UNKNOWN_PROVIDER" },
          cache, 0)) ∧
    (Lisp.geocode_and_normalize "google" ak cache gnet nnet raw =
      Lisp.geocode_google ak cache gnet raw) ∧
    (Lisp.geocode_and_normalize "nominatim" ak cache gnet nnet raw =
      Lisp.geocode_nominatim cache nnet raw) ∧
    (ak ≠ "" → Lisp.geocode_and_normalize "" ak cache gnet nnet raw =
      Lisp.geocode_google ak cache gnet raw) ∧
    (ak = "" → Lisp.geocode_and_normalize "" ak cache gnet nnet raw =
      Lisp.geocode_nominatim cache nnet raw) ∧
    (gp ≠ "google" → gp ≠ "nominatim" → gp ≠ "" →
      Lisp.geocode_and_normalize gp ak cache gnet nnet raw =
        ({ geo_empty gp with owner_geocode_status := "UNKNOWN_PROVIDER" },
          cache, 0)) := by
  refine ⟨rfl, rfl, ?_, ?_, ?_, rfl, rfl, ?_, ?_, ?_⟩
  · intro h
    unfold GP.geocode_and_normalize
    dsimp only
    rw [if_neg (show ¬("" : String) ≠ "" from fun hq => hq rfl), if_pos h]
    rfl
  · intro h
    unfold GP.geocode_and_normalize
    dsimp only
    rw [if_neg (show ¬("" : String) ≠ "" from fun hq => hq rfl),
      if_neg (show ¬ak ≠ "" from fun hq => hq h)]
    rfl
  · intro h1 h2 h3
    unfold GP.geocode_and_normalize
    dsimp only
    rw [if_pos (show gp ≠ "" from h3), if_neg h1, if_neg h2]
  · intro h
    unfold Lisp.geocode_and_normalize
    dsimp only
    rw [if_pos (show ("" : String) = "" from rfl), if_pos h]
    rfl
  · intro h
    unfold Lisp.geocode_and_normalize
    dsimp only
    rw [if_pos (show ("" : String) = "" from rfl),
      if_neg (show ¬ak ≠ "" from fun hq => hq h)]
    rfl
  · intro h1 h2 h3
    unfold Lisp.geocode_and_normalize
    dsimp only
    rw [if_neg (show ¬gp = "" from h3), if_neg h1, if_neg h2]

/-- Witness for the C8 theorem: default-to-nominatim with no key, an unknown
provider name, and default-to-google with a key, at concrete inputs. -/
theorem geocode_dispatch_spec_witness :
    GP.geocode_and_normalize "" "" [] GoogleNet.exn NomNet.exn "x" =
      GP.geocode_nominatim [] NomNet.exn "x" ∧
    GP.geocode_and_normalize "bing" "" [] GoogleNet.exn NomNet.exn "x" =
      ({ geo_empty "bing" with owner_geocode_status := "UNKNOWN_PROVIDER" },
        [], 0) ∧
    Lisp.geocode_and_normalize "" "k" [] GoogleNet.exn NomNet.exn "x" =
      Lisp.geocode_google "k" [] GoogleNet.exn "x" :=
  ⟨(geocode_dispatch_spec "" "" [] GoogleNet.exn NomNet.exn "x").2.2.2.1 rfl,
   (geocode_dispatch_spec "bing" "" [] GoogleNet.exn NomNet.exn "x").2.2.2.2.1
     (by decide) (by decide) (by decide),
   (geocode_dispatch_spec "" "k" [] GoogleNet.exn NomNet.exn "x").2.2.2.2.2.2.2.1
     (by decide)⟩

/-- C1: for any input column, starting cache and network behavior, the
pipeline core of postprocess_file issues at most one provider network call
per unique non-empty cleaned value whose active cache key is missing from
the starting cache; in particular, the number of provider calls is at most
K, the number of distinct non-empty cleaned values, and is 0 when every
unique value is already cached. -/
theorem postprocess_provider_call_bound (gp ak : String)
    (gorc : String → GoogleNet) (norc : String → NomNet)
    (cache0 : GeoCache) (col : List String) :
    (GP.postprocess_core gp ak gorc norc cache0 col).2.2.2 ≤
      ((GP.uniquesOf col).filter
        (fun v => !(dictFind cache0 (GP.activeCacheKey gp ak v)).isSome)).length ∧
    ((GP.uniquesOf col).filter
        (fun v => !(dictFind cache0 (GP.activeCacheKey gp ak v)).isSome)).length ≤
      (GP.uniquesOf col).length := by
  constructor
  · have hb := foldl_calls_le gp ak gorc norc (GP.uniquesOf col) ⟨[], cache0, 0⟩
    unfold GP.postprocess_core
    dsimp only
    simpa using hb
  · exact List.length_filter_le _ _
